import Mathlib

/-!
Verification of the MTP responder filesystem layer of this repository
(`src/main/src/monolith/usb_mtp_impl.c.h`).

The C code is shallowly embedded: machine 32-bit unsigned arithmetic is
modelled on `Nat` with explicit `% 2 ^ 32` where the source uses `uint32_t`
(`fs_handle_t`, `handle_self_inc`, size computations); the 32-slot handle
table array becomes a `List` of entries indexed by slot; fallible
operations return `Option`.  Filesystem calls (`opendir`/`readdir`,
`stat`, `fopen`, `mkdir`, `unlink`, `esp_littlefs_info`) are modelled by
an explicit filesystem value: the directory walk consumed by
`fs_handletable_regenerate` is a hierarchical listing, and the
path-addressed calls use a finite map from path strings to objects.
-/

/-- 32-bit wrap-around used for `uint32_t` values: `a + b` in C. -/
def add32 (a b : Nat) : Nat := (a + b) % 2 ^ 32

/-- 32-bit wrap-around subtraction: `a - b` on `uint32_t` operands,
assuming `a b < 2 ^ 32` as C guarantees for values of that type. -/
def sub32 (a b : Nat) : Nat := (a + 2 ^ 32 - b) % 2 ^ 32

/-- `MTP_HANDLE_TABLE_SIZE` from the source. -/
def MTP_HANDLE_TABLE_SIZE : Nat := 32

/-- `FS_INVALID_HANDLE = UINT_MAX` from the source. -/
def FS_INVALID_HANDLE : Nat := 2 ^ 32 - 1

/-- `SUPPORTED_STORAGE_ID = 0x00010001` from the source. -/
def SUPPORTED_STORAGE_ID : Nat := 0x00010001

/-- `MTP_ASSOCIATION_UNDEFINED` (MTP association code 0x0000). -/
def MTP_ASSOCIATION_UNDEFINED : Nat := 0

/-- `MTP_ASSOCIATION_GENERIC_FOLDER` (MTP association code 0x0001). -/
def MTP_ASSOCIATION_GENERIC_FOLDER : Nat := 1

/-- MTP operation code `MTP_OP_OPEN_SESSION`. -/
def MTP_OP_OPEN_SESSION : Nat := 0x1002

/-- MTP operation code `MTP_OP_CLOSE_SESSION`. -/
def MTP_OP_CLOSE_SESSION : Nat := 0x1003

-- MTP/PTP response codes used by the handlers, as `Int` because the
-- handlers' return type is `int32_t` and `-1` is also returned.
def MTP_RESP_UNDEFINED : Int := 0x2000
def MTP_RESP_OK : Int := 0x2001
def MTP_RESP_GENERAL_ERROR : Int := 0x2002
def MTP_RESP_SESSION_NOT_OPEN : Int := 0x2003
def MTP_RESP_OPERATION_NOT_SUPPORTED : Int := 0x2005
def MTP_RESP_INVALID_STORAGE_ID : Int := 0x2008
def MTP_RESP_INVALID_OBJECT_HANDLE : Int := 0x2009
def MTP_RESP_STORE_FULL : Int := 0x200C
def MTP_RESP_INVALID_PARENT_OBJECT : Int := 0x201A
def MTP_RESP_INVALID_PARAMETER : Int := 0x201D
def MTP_RESP_SESSION_ALREADY_OPEN : Int := 0x201E

/-- The dispatcher (`tud_mtp_command_received_cb`) sends a response
container exactly when the handler's return value satisfies
`resp_code > MTP_RESP_UNDEFINED`. -/
def dispatcher_sends_response (resp_code : Int) : Bool :=
  resp_code > MTP_RESP_UNDEFINED

/-- `fs_handletable_entry_t`: one slot of the handle table.  An empty
`name` marks a free slot, as in the source (`name[0] == '\0'`). -/
structure FsHandletableEntry where
  handle : Nat
  parent_handle : Nat
  is_dir : Bool
  name : String
  deriving DecidableEq

/-- The all-zero slot value of the static C array. -/
def entryDefault : FsHandletableEntry :=
  { handle := 0, parent_handle := 0, is_dir := false, name := "" }

/-- `fs_handletable`: the 32-slot array plus the `handles_used` counter.
`handles` is the array, slot `i` of the C array being element `i`. -/
structure FsHandletable where
  handles : List FsHandletableEntry
  handles_used : Nat
  deriving DecidableEq

/-- Read slot `j` of the table array. -/
def getSlot (hs : List FsHandletableEntry) (j : Nat) : FsHandletableEntry :=
  hs.getD j entryDefault

/-- The handle table of a freshly booted device: static zero-initialized. -/
def initTable : FsHandletable :=
  { handles := List.replicate 32 entryDefault, handles_used := 0 }

/-- `fs_assign_new_handle`: `return ++handle_self_inc;` on a `uint32_t`
counter.  Takes the current counter, returns the incremented counter,
which is also the handle returned to the caller. -/
def fs_assign_new_handle (c : Nat) : Nat := add32 c 1

/-- `fs_get_handle_entry`: linear scan for the first slot whose `handle`
field equals `handle` (no liveness test in the source). -/
def fs_get_handle_entry (t : FsHandletable) (handle : Nat) :
    Option FsHandletableEntry :=
  t.handles.find? (fun e => e.handle == handle)

/-- `fs_handle_valid`: some slot has this `handle` and a nonempty name. -/
def fs_handle_valid (t : FsHandletable) (handle : Nat) : Bool :=
  t.handles.any (fun e => e.handle == handle && e.name != "")

/-- `fs_handletable_find_empty_entry`: index of the first free slot. -/
def fs_handletable_find_empty_entry (t : FsHandletable) : Option Nat :=
  t.handles.findIdx? (fun e => e.name == "")

/-- `fs_path_from_handle`: fails if the handle is not valid; otherwise
builds `/littlefs/[parent.name/]entry.name` from the first slot carrying
the handle.  (When that entry's `parent_handle` is nonzero but no slot
carries it, the source dereferences a null pointer; that arm is modelled
as failure.) -/
def fs_path_from_handle (t : FsHandletable) (handle : Nat) : Option String :=
  if fs_handle_valid t handle then
    match fs_get_handle_entry t handle with
    | none => none
    | some entry =>
      if entry.parent_handle != 0 then
        match fs_get_handle_entry t entry.parent_handle with
        | none => none
        | some parent_entry =>
          some ("/littlefs/" ++ parent_entry.name ++ "/" ++ entry.name)
      else
        some ("/littlefs/" ++ entry.name)
  else
    none

/-- `fs_path_create`: path for a new object under `parent_handle`
(`none` models the `-ENOENT` return when the parent slot is missing). -/
def fs_path_create (t : FsHandletable) (parent_handle : Nat) (name : String) :
    Option String :=
  if parent_handle != 0 then
    match fs_get_handle_entry t parent_handle with
    | none => none
    | some parent_entry =>
      some ("/littlefs/" ++ parent_entry.name ++ "/" ++ name)
  else
    some ("/littlefs/" ++ name)

/-- `fs_delete_handle`: clear the name of the first live slot carrying
`handle` and decrement `handles_used` (a `uint32_t` decrement); return
the table unchanged when no live slot matches (the `-ENOENT` path). -/
def fs_delete_handle (t : FsHandletable) (handle : Nat) : FsHandletable :=
  match t.handles.findIdx? (fun e => e.handle == handle && e.name != "") with
  | none => t
  | some i =>
    { handles := t.handles.set i { getSlot t.handles i with name := "" },
      handles_used := sub32 t.handles_used 1 }

/-- Number of live (nonempty-name) slots in the table. -/
def liveCount (t : FsHandletable) : Nat :=
  (t.handles.filter (fun e => e.name != "")).length

/-- A filesystem object as seen through `stat`: a plain file with a size,
or a directory (`st_mode & S_IFDIR`). -/
inductive FsObj where
  | file (size : Nat) : FsObj
  | dir : FsObj
  deriving DecidableEq

/-- The mounted littlefs volume for the path-addressed calls: a finite
map from absolute path strings to objects, plus the two numbers reported
by `esp_littlefs_info`. -/
structure Fs where
  entries : List (String × FsObj)
  capacity_bytes : Nat
  used_bytes : Nat
  deriving DecidableEq

/-- `stat(path)`: look the path up in the volume. -/
def Fs.statPath (fs : Fs) (p : String) : Option FsObj :=
  fs.entries.lookup p

/-- `fopen(path, "w")`: create or truncate the file at `path`. -/
def Fs.writeOpen (fs : Fs) (p : String) : Fs :=
  { fs with entries :=
      (p, FsObj.file 0) :: fs.entries.filter (fun kv => kv.1 != p) }

/-- `mkdir(path, 0777)`: create the directory; an existing path makes
`mkdir` fail with `EEXIST`, leaving the volume unchanged (the source
ignores the return value). -/
def Fs.mkdir (fs : Fs) (p : String) : Fs :=
  if (fs.entries.lookup p).isSome then fs
  else { fs with entries := (p, FsObj.dir) :: fs.entries }

/-- `unlink(path)`: remove the file at `path`. -/
def Fs.unlink (fs : Fs) (p : String) : Fs :=
  { fs with entries := fs.entries.filter (fun kv => kv.1 != p) }

/-- One immediate child of a root-level directory, as delivered by
`readdir` on the subdirectory (`d_name`, `d_type == DT_DIR`). -/
structure FsChildItem where
  name : String
  is_dir : Bool
  deriving DecidableEq

/-- One root-level item of the walk done by `fs_handletable_regenerate`:
`readdir("/littlefs")` output, with the nested `readdir` results when the
item is a directory. -/
structure FsRootItem where
  name : String
  is_dir : Bool
  children : List FsChildItem
  deriving DecidableEq

/-- Inner loop of `fs_handletable_regenerate` over one directory's
children.  Writes `name`, `parent_handle` and `is_dir` of slot `ii`
(the source does not write the `handle` field of child slots), then
advances the handle counter, stopping (the `goto cleanup`) when the new
counter reaches `MTP_HANDLE_TABLE_SIZE`.  The returned `Bool` is the
stop flag. -/
def regen_child_items (hs : List FsHandletableEntry) (c ph : Nat) :
    List FsChildItem → List FsHandletableEntry × Nat × Bool
  | [] => (hs, c, false)
  | ch :: rest =>
    let e := getSlot hs c
    let hs1 := hs.set c
      { e with name := ch.name, parent_handle := ph, is_dir := ch.is_dir }
    let c1 := fs_assign_new_handle c
    if 32 ≤ c1 then (hs1, c1, true)
    else regen_child_items hs1 c1 ph rest

/-- Outer loop of `fs_handletable_regenerate` over the root listing.
A root item is written at slot `ii` (name, `parent_handle := 0`,
`handle := ii`; `is_dir` is not written), the counter advances with the
table-full check, and when the item is a directory the source then takes
the already-advanced counter as `parent_handle`, sets `is_dir := true`
on that next slot, and records the children from there. -/
def regen_root_items (hs : List FsHandletableEntry) (c : Nat) :
    List FsRootItem → List FsHandletableEntry × Nat
  | [] => (hs, c)
  | it :: rest =>
    let e := getSlot hs c
    let hs1 := hs.set c
      { e with name := it.name, parent_handle := 0, handle := c }
    let c1 := fs_assign_new_handle c
    if 32 ≤ c1 then (hs1, c1)
    else if it.is_dir then
      let ph := c1
      let e2 := getSlot hs1 ph
      let hs2 := hs1.set ph { e2 with is_dir := true }
      match regen_child_items hs2 c1 ph it.children with
      | (hs3, c3, true) => (hs3, c3)
      | (hs3, c3, false) => regen_root_items hs3 c3 rest
    else regen_root_items hs1 c1 rest

/-- `fs_handletable_regenerate`: walk the filesystem listing into the
table (without clearing pre-existing slots) and set `handles_used` to
the final value of `ii`.  Takes and returns the `handle_self_inc`
counter, which the walk advances through `fs_assign_new_handle`. -/
def fs_handletable_regenerate (t : FsHandletable) (counter : Nat)
    (listing : List FsRootItem) : FsHandletable × Nat :=
  let c0 := fs_assign_new_handle counter
  let (hs, c) := regen_root_items t.handles c0 listing
  ({ handles := hs, handles_used := c }, c)

/-- The mutable globals of the responder relevant to the handlers:
the handle table, the `handle_self_inc` counter, `is_session_opened`,
the littlefs volume, and the active-transfer globals `current_handle`,
`current_file` (modelled by `current_open`) and `current_file_size`. -/
structure MtpState where
  table : FsHandletable
  counter : Nat
  session_open : Bool
  fs : Fs
  current_handle : Nat
  current_open : Bool
  current_file_size : Nat
  deriving DecidableEq

/-- State at boot: zeroed table, counter 0, session closed, no open
file, over a given littlefs volume. -/
def initState (fs : Fs) : MtpState :=
  { table := initTable, counter := 0, session_open := false, fs := fs,
    current_handle := FS_INVALID_HANDLE, current_open := false,
    current_file_size := 0 }

/-- `fs_open_close_session`: dispatched for both `MTP_OP_OPEN_SESSION`
and `MTP_OP_CLOSE_SESSION`.  Open regenerates the handle table from the
current filesystem listing; close only clears the session flag and
resets `handle_self_inc` to 0 (the table is not wiped). -/
def fs_open_close_session (st : MtpState) (op_code : Nat)
    (listing : List FsRootItem) : Int × MtpState :=
  if op_code == MTP_OP_OPEN_SESSION then
    if st.session_open then (MTP_RESP_SESSION_ALREADY_OPEN, st)
    else
      let (t, c) := fs_handletable_regenerate st.table st.counter listing
      (MTP_RESP_OK, { st with session_open := true, table := t, counter := c })
  else
    if !st.session_open then (MTP_RESP_SESSION_NOT_OPEN, st)
    else (MTP_RESP_OK, { st with session_open := false, counter := 0 })

/-- `fs_can_create_file`: table not full and
`capacity_bytes - used_bytes >= size` (`size_t` arithmetic). -/
def fs_can_create_file (st : MtpState) (size : Nat) : Bool :=
  if st.table.handles_used == MTP_HANDLE_TABLE_SIZE then false
  else if sub32 st.fs.capacity_bytes st.fs.used_bytes < size then false
  else true

/-- `fs_create_file`: build the path, find a free slot, assign a fresh
handle, open the file for writing, fill the slot (the source writes
`parent_handle`, `handle` and `name` but not `is_dir`), bump
`handles_used` and record the open file in the transfer globals.
`fopen` is modelled as always succeeding. -/
def fs_create_file (st : MtpState) (parent_handle : Nat) (name : String) :
    Nat × MtpState :=
  match fs_path_create st.table parent_handle name with
  | none => (FS_INVALID_HANDLE, st)
  | some path =>
    match fs_handletable_find_empty_entry st.table with
    | none => (FS_INVALID_HANDLE, st)
    | some slot =>
      let handle := fs_assign_new_handle st.counter
      let e := getSlot st.table.handles slot
      let e1 := { e with parent_handle := parent_handle, handle := handle,
                         name := name }
      (handle,
        { st with
            counter := handle,
            fs := st.fs.writeOpen path,
            table := { handles := st.table.handles.set slot e1,
                       handles_used := add32 st.table.handles_used 1 },
            current_handle := handle,
            current_open := true })

/-- The two transfer phases a handler distinguishes. -/
inductive MtpPhase where
  | command : MtpPhase
  | data : MtpPhase
  deriving DecidableEq

/-- The fields of the `SendObjectInfo` dataset the handler reads
(`mtp_object_info_header_t` plus the decoded UTF-16 filename). -/
structure MtpObjectInfo where
  storage_id : Nat
  object_compressed_size : Nat
  parent_object : Nat
  association_type : Nat
  filename : String
  deriving DecidableEq

/-- The parent check of `fs_send_object_info`'s data phase for a
nonzero resolved parent: `fs_stat_handle` must succeed and report a
directory. -/
def fs_soi_parent_ok (st : MtpState) (parent_handle : Nat) : Bool :=
  if parent_handle != 0 then
    match fs_path_from_handle st.table parent_handle with
    | none => false
    | some p =>
      match st.fs.statPath p with
      | none => false
      | some FsObj.dir => true
      | some (FsObj.file _) => false
  else true

/-- `fs_send_object_info`: session and storage-id guards, then in the
data phase the dataset's storage id and parent are validated and either
a plain file is created through `fs_create_file` (recording its size in
`current_file_size`) or, for a folder association with root parent, the
directory is created with `mkdir` and no table entry is added. -/
def fs_send_object_info (st : MtpState) (storage_id : Nat)
    (phase : MtpPhase) (info : MtpObjectInfo) : Int × MtpState :=
  if !st.session_open then (MTP_RESP_SESSION_NOT_OPEN, st)
  else if storage_id != 0xFFFFFFFF && storage_id != SUPPORTED_STORAGE_ID then
    (MTP_RESP_INVALID_STORAGE_ID, st)
  else
    match phase with
    | MtpPhase.command => (0, st)
    | MtpPhase.data =>
      if info.storage_id != 0 && info.storage_id != SUPPORTED_STORAGE_ID then
        (MTP_RESP_INVALID_STORAGE_ID, st)
      else
        let parent_handle : Nat :=
          if info.parent_object == 0xFFFFFFFF then 0 else info.parent_object
        if !fs_soi_parent_ok st parent_handle then
          (MTP_RESP_INVALID_PARENT_OBJECT, st)
        else if info.association_type == MTP_ASSOCIATION_UNDEFINED then
          if !fs_can_create_file st info.object_compressed_size then
            (MTP_RESP_STORE_FULL, st)
          else
            let (_, st1) := fs_create_file st parent_handle info.filename
            (0, { st1 with current_file_size := info.object_compressed_size })
        else if info.association_type == MTP_ASSOCIATION_GENERIC_FOLDER then
          if parent_handle != 0 then (MTP_RESP_INVALID_PARENT_OBJECT, st)
          else
            (0, { st with fs := st.fs.mkdir ("/littlefs/" ++ info.filename) })
        else (MTP_RESP_INVALID_PARAMETER, st)

/-- `fs_delete_object`: session guard, resolve the path (failure means
invalid handle), `stat` it (failure means general error), refuse
directories, otherwise unlink the file and clear the table entry. -/
def fs_delete_object (st : MtpState) (obj_handle : Nat) : Int × MtpState :=
  if !st.session_open then (MTP_RESP_SESSION_NOT_OPEN, st)
  else
    match fs_path_from_handle st.table obj_handle with
    | none => (MTP_RESP_INVALID_OBJECT_HANDLE, st)
    | some path =>
      match st.fs.statPath path with
      | none => (MTP_RESP_GENERAL_ERROR, st)
      | some FsObj.dir => (MTP_RESP_OPERATION_NOT_SUPPORTED, st)
      | some (FsObj.file _) =>
        (MTP_RESP_OK,
          { st with fs := st.fs.unlink path,
                    table := fs_delete_handle st.table obj_handle })

/-- `fs_get_object_handles`: storage-id guard only (no session or
parent-liveness check); the `0xFFFFFFFF` parent sentinel maps to root 0;
the reply is the `handle` field of every slot whose `parent_handle`
matches and whose name is nonempty. -/
def fs_get_object_handles (st : MtpState) (storage_id parent_param : Nat) :
    Int × Option (List Nat) :=
  if storage_id != 0xFFFFFFFF && storage_id != SUPPORTED_STORAGE_ID then
    (MTP_RESP_INVALID_STORAGE_ID, none)
  else
    let handle : Nat := if parent_param == 0xFFFFFFFF then 0 else parent_param
    let hs := (st.table.handles.filter
        (fun e => e.parent_handle == handle && e.name != "")).map
      (fun e => e.handle)
    (0, some hs)

/-- The storage-info dataset fields recomputed by `fs_get_storage_info`. -/
structure StorageInfoOut where
  max_capacity_in_bytes : Nat
  free_space_in_bytes : Nat
  free_space_in_objects : Nat
  deriving DecidableEq

/-- `fs_get_storage_info`: `TU_VERIFY(SUPPORTED_STORAGE_ID == storage_id,
-1)` returns the bare `-1` on mismatch; otherwise the dataset is filled
from `esp_littlefs_info` and `MTP_HANDLE_TABLE_SIZE -
handle_table.handles_used` and the handler returns 0. -/
def fs_get_storage_info (st : MtpState) (storage_id : Nat) :
    Int × Option StorageInfoOut :=
  if SUPPORTED_STORAGE_ID != storage_id then (-1, none)
  else
    (0, some
      { max_capacity_in_bytes := st.fs.capacity_bytes,
        free_space_in_bytes := sub32 st.fs.capacity_bytes st.fs.used_bytes,
        free_space_in_objects :=
          sub32 MTP_HANDLE_TABLE_SIZE st.table.handles_used })

/-- `sizeof(mtp_container_header_t)`: 4-byte length, 2-byte type,
2-byte code, 4-byte transaction id. -/
def mtp_container_header_size : Nat := 12

/-- Observable outcome of one `MTP_PHASE_DATA` pass of `fs_get_object`. -/
structure GetObjectDataOut where
  offset : Nat
  xact_len : Nat
  sent : Bool
  deriving DecidableEq

/-- The `MTP_PHASE_DATA` branch of `fs_get_object`, entered with the
stream of `obj_handle` open (`current_file`/`current_handle` set by the
command phase) and `current_file_size` captured.  Computes the file
offset from the cumulative transferred bytes, reads
`tu_min32(current_file_size - offset, payload_bytes)` bytes into the
payload, and closes the stream (releasing the transfer globals through
`fs_close_handle`) when `offset + xact_len >= current_file_size`.
All quantities are `uint32_t`. -/
def fs_get_object_data_phase (st : MtpState) (total_xferred_bytes
    payload_bytes : Nat) : GetObjectDataOut × MtpState :=
  let offset := sub32 total_xferred_bytes mtp_container_header_size
  let xact_len := min (sub32 st.current_file_size offset) payload_bytes
  let out : GetObjectDataOut :=
    { offset := offset, xact_len := xact_len, sent := 0 < xact_len }
  if st.current_file_size ≤ add32 offset xact_len then
    (out, { st with current_handle := FS_INVALID_HANDLE,
                    current_open := false })
  else
    (out, st)

/-- The handle counter after `n` successive `fs_assign_new_handle` calls
starting from counter value `c0`; `iterAssign c0 n` is also the handle
returned by the `n`-th call (for `n > 0`). -/
def iterAssign (c0 : Nat) : Nat → Nat
  | 0 => c0
  | n + 1 => fs_assign_new_handle (iterAssign c0 n)

/-- The default `FsRootItem` used with `List.getD`. -/
def rootItemDefault : FsRootItem := { name := "", is_dir := false, children := [] }

/-- Closed form of `regen_root_items` on a listing without directories:
write the items at consecutive slots `c, c+1, ...`, each slot receiving
the item's name, `parent_handle := 0` and `handle :=` its slot index. -/
def flatWrite (hs : List FsHandletableEntry) (c : Nat) :
    List FsRootItem → List FsHandletableEntry
  | [] => hs
  | it :: rest =>
    let w := { getSlot hs c with
               name := it.name, parent_handle := 0, handle := c }
    flatWrite (hs.set c w) (c + 1) rest

-- Concrete scenario used by several claims: a littlefs volume holding
-- two files `a` and `b`, a session opened on it, one file `c` created
-- through `SendObjectInfo`, the session closed and reopened on the
-- then-current listing `a`, `b`, `c`.

/-- Scenario volume: files `/littlefs/a` and `/littlefs/b`. -/
def fsDemo : Fs :=
  { entries := [("/littlefs/a", FsObj.file 10), ("/littlefs/b", FsObj.file 20)],
    capacity_bytes := 4096, used_bytes := 100 }

/-- Scenario listing of `fsDemo`: two plain files. -/
def listingAB : List FsRootItem :=
  [{ name := "a", is_dir := false, children := [] },
   { name := "b", is_dir := false, children := [] }]

/-- Scenario listing after the file `c` is created. -/
def listingABC : List FsRootItem :=
  [{ name := "a", is_dir := false, children := [] },
   { name := "b", is_dir := false, children := [] },
   { name := "c", is_dir := false, children := [] }]

/-- Scenario state 1: session opened on the two-file volume. -/
def stS1 : MtpState :=
  (fs_open_close_session (initState fsDemo) MTP_OP_OPEN_SESSION listingAB).2

/-- The `SendObjectInfo` dataset creating plain file `c` (5 bytes) at root. -/
def infoFileC : MtpObjectInfo :=
  { storage_id := 0, object_compressed_size := 5, parent_object := 0xFFFFFFFF,
    association_type := 0, filename := "c" }

/-- Scenario state 2: file `c` created (handle 4, slot 0). -/
def stS2 : MtpState :=
  (fs_send_object_info stS1 SUPPORTED_STORAGE_ID MtpPhase.data infoFileC).2

/-- Scenario state 3: session closed (allocator reset, table kept). -/
def stS3 : MtpState :=
  (fs_open_close_session stS2 MTP_OP_CLOSE_SESSION listingABC).2

/-- Scenario state 4: session reopened on the three-file listing. -/
def stS4 : MtpState :=
  (fs_open_close_session stS3 MTP_OP_OPEN_SESSION listingABC).2

/-- Scenario: session opened from boot on a listing holding one
directory `d` that contains one plain file `f`. -/
def listingDirF : List FsRootItem :=
  [{ name := "d", is_dir := true, children := [{ name := "f", is_dir := false }] }]

/-- State after opening a session on `listingDirF` from boot. -/
def stDir : MtpState :=
  (fs_open_close_session (initState fsDemo) MTP_OP_OPEN_SESSION listingDirF).2

/-- State after opening a session from boot on an empty listing. -/
def stEmptyOpen : MtpState :=
  (fs_open_close_session (initState fsDemo) MTP_OP_OPEN_SESSION []).2

/-- A state with an outbound transfer in flight: stream for handle 3
open, 100-byte file (used to witness the `GetObject` data phase). -/
def stXfer : MtpState :=
  { table := stS1.table, counter := stS1.counter, session_open := true,
    fs := fsDemo, current_handle := 3, current_open := true,
    current_file_size := 100 }

theorem iterAssign_eq (c0 : Nat) (h : c0 < 2 ^ 32) (n : Nat) :
    iterAssign c0 n = (c0 + n) % 2 ^ 32 := by
  have hM : (2 : Nat) ^ 32 = 4294967296 := by norm_num
  induction n with
  | zero =>
    simp only [iterAssign, Nat.add_zero]
    rw [hM] at h ⊢
    omega
  | succ n ih =>
    unfold iterAssign fs_assign_new_handle add32
    rw [ih, hM]
    omega

/-- Claim C3, counterexample: `handle_self_inc` is a `uint32_t`, so the
2^32-th `fs_assign_new_handle` call of a session (the counter starts the
session at 0) returns handle 0, contradicting "none is 0" and, with the
first call returning 1 and later calls repeating earlier values,
strict increase and non-reuse. -/
theorem c3_counterexample : iterAssign 0 (2 ^ 32) = 0 := by
  rw [iterAssign_eq 0 (by norm_num)]
  norm_num

/-- Claim C3, amended: within one open session, as long as fewer than
2^32 handles are allocated, the handles returned by successive
`fs_assign_new_handle` calls (call `k` returns `iterAssign 0 k`; the
counter is 0 when a session starts) are nonzero and strictly
increasing, hence never repeat. -/
theorem c3_amended (i j : Nat) (hi : 0 < i) (hij : i < j)
    (hj : j < 2 ^ 32) : iterAssign 0 i ≠ 0 ∧ iterAssign 0 i < iterAssign 0 j := by
  rw [iterAssign_eq 0 (by norm_num), iterAssign_eq 0 (by norm_num)]
  have hM : (2 : Nat) ^ 32 = 4294967296 := by norm_num
  rw [hM] at *
  refine ⟨?_, ?_⟩ <;> omega

theorem c3_amended_witness :
    iterAssign 0 1 ≠ 0 ∧ iterAssign 0 1 < iterAssign 0 2 :=
  c3_amended 1 2 (by decide) (by decide) (by norm_num)

/-- Claim C1, counterexample: concrete reachable run refuting the claim.
From boot, a session is opened on listing `a`, `b`; `SendObjectInfo`
creates file `c`, issuing handle 4 (stored in slot 0, the first free
slot); the session is closed and reopened on the then-current listing
`a`, `b`, `c`.  After the reopen the pre-close handle 4 is still valid
and still resolves (`fs_handletable_regenerate` never clears slots it
does not overwrite), and the table holds 4 live entries for the 3
objects of the filesystem listing (object `c` is listed twice). -/
theorem c1_counterexample :
    stS2.current_handle = 4 ∧ stS2.session_open = true ∧
    stS3.session_open = false ∧ stS4.session_open = true ∧
    fs_handle_valid stS4.table 4 = true ∧
    fs_path_from_handle stS4.table 4 = some "/littlefs/c" ∧
    listingABC.length = 3 ∧ liveCount stS4.table = 4 := by
  decide

/-- Claim C2, code-bug evidence: opening a session from boot on a
listing with one directory `d` containing one file `f` yields a table
where the live entry for `f` (slot 2) carries `parent_handle = 2` while
no table entry carries handle 2 at all (the directory got handle 1 and
the child slot's own `handle` field was never written), and the
directory's entry has `is_dir = false` (the `is_dir := true` write went
to slot 2 and was then overwritten).  This violates the invariant that a
nonzero `parent_handle` references an existing directory entry. -/
theorem c2_code_bug_evidence :
    (getSlot stDir.table.handles 1).name = "d" ∧
    (getSlot stDir.table.handles 1).handle = 1 ∧
    (getSlot stDir.table.handles 1).is_dir = false ∧
    (getSlot stDir.table.handles 2).name = "f" ∧
    (getSlot stDir.table.handles 2).parent_handle = 2 ∧
    (getSlot stDir.table.handles 2).handle = 0 ∧
    fs_get_handle_entry stDir.table 2 = none := by
  decide

/-- Claim C5, counterexample: in the reachable state `stS1` (session
opened from boot on the flat listing `a`, `b`) no live entry carries
handle 0, so `fs_path_from_handle` on handle 0 fails instead of
returning the storage root path. -/
theorem c5_counterexample :
    fs_handle_valid stS1.table 0 = false ∧
    fs_path_from_handle stS1.table 0 = none := by
  decide

/-- Claim C6, code-bug evidence: in the reachable state `stEmptyOpen`
(session opened from boot on an empty listing, zero live entries) a
`GetStorageInfo` request for the unsupported storage id 5 makes
`fs_get_storage_info` return the bare `-1`, which is not
`MTP_RESP_INVALID_STORAGE_ID` and which the dispatcher does not turn
into any response; and for the supported id the reported
`free_space_in_objects` is `32 - handles_used = 31`, not
`32 - (number of live entries) = 32`, because
`fs_handletable_regenerate` stores the next unused handle (count + 1)
into `handles_used`. -/
theorem c6_code_bug_evidence :
    (fs_get_storage_info stEmptyOpen 5).1 = -1 ∧
    (fs_get_storage_info stEmptyOpen 5).1 ≠ MTP_RESP_INVALID_STORAGE_ID ∧
    dispatcher_sends_response (fs_get_storage_info stEmptyOpen 5).1 = false ∧
    liveCount stEmptyOpen.table = 0 ∧
    (fs_get_storage_info stEmptyOpen SUPPORTED_STORAGE_ID).2 =
      some { max_capacity_in_bytes := 4096, free_space_in_bytes := 3996,
             free_space_in_objects := 31 } := by
  decide

/-- Claim C4: in every `GetObject` data phase (stream open,
`total_xferred_bytes` at least the container header and consistent with
the file size), the file offset read equals the cumulative transferred
bytes minus the container header size, the number of bytes placed in
the reply buffer equals `min(file size - offset, payload capacity)`,
and the stream is closed with the transfer globals released exactly
when `offset + xact_len` reaches the file size. -/
theorem c4_get_object_data_phase (st : MtpState)
    (total_xferred payload_bytes : Nat)
    (hopen : st.current_open = true)
    (h1 : mtp_container_header_size ≤ total_xferred)
    (h2 : total_xferred < 2 ^ 32)
    (h3 : st.current_file_size < 2 ^ 32)
    (h4 : total_xferred - mtp_container_header_size ≤ st.current_file_size) :
    (fs_get_object_data_phase st total_xferred payload_bytes).1.offset
        = total_xferred - mtp_container_header_size ∧
    (fs_get_object_data_phase st total_xferred payload_bytes).1.xact_len
        = min (st.current_file_size -
            (total_xferred - mtp_container_header_size)) payload_bytes ∧
    (((fs_get_object_data_phase st total_xferred payload_bytes).2.current_open
          = false ∧
      (fs_get_object_data_phase st total_xferred payload_bytes).2.current_handle
          = FS_INVALID_HANDLE) ↔
      (total_xferred - mtp_container_header_size) +
        (fs_get_object_data_phase st total_xferred payload_bytes).1.xact_len
        = st.current_file_size) := by
  have hM : (2 : Nat) ^ 32 = 4294967296 := by norm_num
  have hhdr : mtp_container_header_size = 12 := rfl
  rw [hhdr] at h1 h4 ⊢
  rw [hM] at h2 h3
  have ho : sub32 total_xferred 12 = total_xferred - 12 := by
    unfold sub32; rw [hM]; omega
  have hx : sub32 st.current_file_size (total_xferred - 12)
      = st.current_file_size - (total_xferred - 12) := by
    unfold sub32; rw [hM]; omega
  have hadd : add32 (total_xferred - 12)
        (min (st.current_file_size - (total_xferred - 12)) payload_bytes)
      = (total_xferred - 12) +
        min (st.current_file_size - (total_xferred - 12)) payload_bytes := by
    unfold add32; rw [hM]; omega
  simp only [fs_get_object_data_phase, hhdr, ho, hx, hadd]
  by_cases hc : st.current_file_size ≤ (total_xferred - 12) +
      min (st.current_file_size - (total_xferred - 12)) payload_bytes
  · simp only [hc, if_true]
    refine ⟨trivial, trivial, ?_⟩
    constructor
    · intro _
      omega
    · intro _
      exact ⟨trivial, trivial⟩
  · simp only [hc, if_false]
    refine ⟨trivial, trivial, ?_⟩
    constructor
    · intro hcontra
      rw [hopen] at hcontra
      exact Bool.noConfusion hcontra.1
    · intro heq
      exact absurd heq (by omega)

/-- Witness for claim C4 at a concrete input: 100-byte file, 62 bytes
already transferred (offset 50), 30-byte payload buffer. -/
theorem c4_witness :
    (fs_get_object_data_phase stXfer 62 30).1.offset = 50 ∧
    (fs_get_object_data_phase stXfer 62 30).1.xact_len = 30 := by
  have h := c4_get_object_data_phase stXfer 62 30 (by decide) (by decide)
    (by norm_num) (by decide) (by decide)
  exact ⟨h.1, h.2.1⟩

/-- Claim C10: for every state (no session-open check) and every parent
parameter (with `0xFFFFFFFF` mapped to root 0), when the storage id is
the supported one or the all-storages sentinel, `fs_get_object_handles`
succeeds (returns 0, sending data) and reports exactly the handles of
live entries whose `parent_handle` equals the resolved parent — with no
check that a nonzero parent is a live directory handle, so a dead or
never-issued parent yields the empty set with success. -/
theorem c10_get_object_handles (st : MtpState) (storage_id parent_param : Nat)
    (hsid : storage_id = 0xFFFFFFFF ∨ storage_id = SUPPORTED_STORAGE_ID) :
    (fs_get_object_handles st storage_id parent_param).1 = 0 ∧
    ∀ h : Nat,
      h ∈ ((fs_get_object_handles st storage_id parent_param).2.getD []) ↔
      ∃ e ∈ st.table.handles,
        e.parent_handle = (if parent_param == 0xFFFFFFFF then 0
                           else parent_param) ∧
        e.name ≠ "" ∧ e.handle = h := by
  have hguard : (storage_id != 0xFFFFFFFF
      && storage_id != SUPPORTED_STORAGE_ID) = false := by
    rcases hsid with h | h <;> subst h <;> simp [SUPPORTED_STORAGE_ID]
  unfold fs_get_object_handles
  rw [hguard]
  simp only [Bool.false_eq_true, if_false, Option.getD_some]
  constructor
  · trivial
  · intro h
    simp only [List.mem_map, List.mem_filter, Bool.and_eq_true, beq_iff_eq,
      bne_iff_ne, ne_eq]
    constructor
    · rintro ⟨e, ⟨hmem, hpar, hname⟩, hh⟩
      exact ⟨e, hmem, hpar, hname, hh⟩
    · rintro ⟨e, hmem, hpar, hname, hh⟩
      exact ⟨e, ⟨hmem, hpar, hname⟩, hh⟩

/-- Witness for claim C10 at a concrete input: state `stS1` (entries
parented at root only) queried with the all-storages sentinel and the
never-issued parent handle 7 — the theorem instance immediately gives
success; no live entry has parent 7. -/
theorem c10_witness :
    (fs_get_object_handles stS1 0xFFFFFFFF 7).1 = 0 ∧
    ∀ h : Nat,
      h ∈ ((fs_get_object_handles stS1 0xFFFFFFFF 7).2.getD []) ↔
      ∃ e ∈ stS1.table.handles,
        e.parent_handle = (if (7 : Nat) == 0xFFFFFFFF then 0 else 7) ∧
        e.name ≠ "" ∧ e.handle = h :=
  c10_get_object_handles stS1 0xFFFFFFFF 7 (Or.inl rfl)

/-- Claim C7: a `SendObjectInfo` data phase for a plain file (session
open, storage ids acceptable, parent check passing) whose declared size
exceeds `capacity - used` bytes, or arriving when the handle table is
full, returns StoreFull and leaves the whole responder state (handle
table and filesystem) unchanged — no object is created. -/
theorem c7_store_full (st : MtpState) (storage_id : Nat)
    (info : MtpObjectInfo)
    (hsess : st.session_open = true)
    (hsid : storage_id = 0xFFFFFFFF ∨ storage_id = SUPPORTED_STORAGE_ID)
    (hinfosid : info.storage_id = 0 ∨ info.storage_id = SUPPORTED_STORAGE_ID)
    (hassoc : info.association_type = MTP_ASSOCIATION_UNDEFINED)
    (hparent : fs_soi_parent_ok st
      (if info.parent_object == 0xFFFFFFFF then 0 else info.parent_object)
      = true)
    (hcap : st.fs.used_bytes ≤ st.fs.capacity_bytes)
    (hcap2 : st.fs.capacity_bytes < 2 ^ 32)
    (hfull : st.table.handles_used = 32 ∨
      st.fs.capacity_bytes - st.fs.used_bytes < info.object_compressed_size) :
    fs_send_object_info st storage_id MtpPhase.data info
      = (MTP_RESP_STORE_FULL, st) := by
  have hguard1 : (storage_id != 0xFFFFFFFF
      && storage_id != SUPPORTED_STORAGE_ID) = false := by
    rcases hsid with h | h <;> subst h <;> simp
  have hguard2 : (info.storage_id != 0
      && info.storage_id != SUPPORTED_STORAGE_ID) = false := by
    rcases hinfosid with h | h <;> rw [h] <;> simp
  have hcc : fs_can_create_file st info.object_compressed_size = false := by
    unfold fs_can_create_file MTP_HANDLE_TABLE_SIZE
    rcases hfull with h | h
    · simp [h]
    · have hsub : sub32 st.fs.capacity_bytes st.fs.used_bytes
          = st.fs.capacity_bytes - st.fs.used_bytes := by
        unfold sub32
        have hM : (2 : Nat) ^ 32 = 4294967296 := by norm_num
        rw [hM] at hcap2 ⊢
        omega
      rw [hsub]
      split
      · rfl
      · simp [h]
  simp only [fs_send_object_info, hsess, hguard1, hguard2, hparent, hassoc,
    hcc, MTP_ASSOCIATION_UNDEFINED, Bool.not_true, Bool.not_false,
    Bool.false_eq_true, if_false, if_true]
  simp

/-- Claim C8: a `SendObjectInfo` data phase with folder association
(session open, storage ids acceptable): for a non-root resolved parent
it returns InvalidParentObject with the state unchanged; for the root
parent it creates the directory on the filesystem via `mkdir` and adds
no handle-table entry (table and counter unchanged). -/
theorem c8_folder (st : MtpState) (storage_id : Nat) (info : MtpObjectInfo)
    (hsess : st.session_open = true)
    (hsid : storage_id = 0xFFFFFFFF ∨ storage_id = SUPPORTED_STORAGE_ID)
    (hinfosid : info.storage_id = 0 ∨ info.storage_id = SUPPORTED_STORAGE_ID)
    (hassoc : info.association_type = MTP_ASSOCIATION_GENERIC_FOLDER) :
    ((if info.parent_object == 0xFFFFFFFF then (0 : Nat)
      else info.parent_object) ≠ 0 →
      fs_send_object_info st storage_id MtpPhase.data info
        = (MTP_RESP_INVALID_PARENT_OBJECT, st)) ∧
    ((if info.parent_object == 0xFFFFFFFF then (0 : Nat)
      else info.parent_object) = 0 →
      fs_send_object_info st storage_id MtpPhase.data info
        = (0, { st with fs := st.fs.mkdir ("/littlefs/" ++ info.filename) }) ∧
      (st.fs.statPath ("/littlefs/" ++ info.filename) = none →
        (st.fs.mkdir ("/littlefs/" ++ info.filename)).statPath
          ("/littlefs/" ++ info.filename) = some FsObj.dir)) := by
  have hguard1 : (storage_id != 0xFFFFFFFF
      && storage_id != SUPPORTED_STORAGE_ID) = false := by
    rcases hsid with h | h <;> subst h <;> simp
  have hguard2 : (info.storage_id != 0
      && info.storage_id != SUPPORTED_STORAGE_ID) = false := by
    rcases hinfosid with h | h <;> rw [h] <;> simp
  constructor
  · intro hp
    have hpb : ((if info.parent_object == (0xFFFFFFFF : Nat) then (0 : Nat)
        else info.parent_object) != 0) = true := by
      by_cases hc : info.parent_object = 0xFFFFFFFF
      · exact absurd (by simp [hc]) hp
      · have hpz : info.parent_object ≠ 0 := by
          intro hz
          exact hp (by simp [hc, hz])
        simp [hc, hpz]
    by_cases hok : fs_soi_parent_ok st
        (if info.parent_object == 0xFFFFFFFF then (0 : Nat)
         else info.parent_object) = true
    · simp only [fs_send_object_info, hsess, hguard1, hguard2, hok, hassoc,
        MTP_ASSOCIATION_GENERIC_FOLDER, MTP_ASSOCIATION_UNDEFINED,
        Bool.not_true, Bool.false_eq_true, if_false, hpb, if_true]
      simp
    · simp only [Bool.not_eq_true] at hok
      simp only [fs_send_object_info, hsess, hguard1, hguard2, hok, hassoc,
        Bool.not_true, Bool.not_false, Bool.false_eq_true, if_false, if_true]
  · intro hp
    have hpb : ((if info.parent_object == (0xFFFFFFFF : Nat) then (0 : Nat)
        else info.parent_object) != 0) = false := by
      rw [hp]
      simp
    have hok : fs_soi_parent_ok st
        (if info.parent_object == 0xFFFFFFFF then (0 : Nat)
         else info.parent_object) = true := by
      rw [hp]
      unfold fs_soi_parent_ok
      simp
    refine ⟨?_, ?_⟩
    · simp only [fs_send_object_info, hsess, hguard1, hguard2, hok, hassoc,
        MTP_ASSOCIATION_GENERIC_FOLDER, MTP_ASSOCIATION_UNDEFINED,
        Bool.not_true, Bool.false_eq_true, if_false, hpb, if_true]
      simp
    · intro hnone
      unfold Fs.mkdir
      unfold Fs.statPath at hnone
      simp only [hnone, Option.isSome_none, Bool.false_eq_true, if_false]
      unfold Fs.statPath
      simp [List.lookup]

/-- Witness for claim C7 at a concrete input: state `stS1`
(capacity 4096, used 100, 3 handles used) receiving a 100000-byte
file announcement — StoreFull, state unchanged. -/
theorem c7_witness :
    fs_send_object_info stS1 SUPPORTED_STORAGE_ID MtpPhase.data
      { storage_id := 0, object_compressed_size := 100000,
        parent_object := 0xFFFFFFFF, association_type := 0, filename := "big" }
      = (MTP_RESP_STORE_FULL, stS1) :=
  c7_store_full stS1 SUPPORTED_STORAGE_ID
    { storage_id := 0, object_compressed_size := 100000,
      parent_object := 0xFFFFFFFF, association_type := 0, filename := "big" }
    (by decide) (Or.inr rfl) (Or.inl rfl) rfl (by decide) (by decide)
    (by decide) (Or.inr (by decide))

/-- Witness for claim C8 at a concrete input: creating folder `newdir`
at root in state `stS1` — success, directory added, table unchanged. -/
theorem c8_witness :
    fs_send_object_info stS1 SUPPORTED_STORAGE_ID MtpPhase.data
      { storage_id := 0, object_compressed_size := 0,
        parent_object := 0xFFFFFFFF, association_type := 1,
        filename := "newdir" }
      = (0, { stS1 with fs := stS1.fs.mkdir "/littlefs/newdir" }) := by
  have h := c8_folder stS1 SUPPORTED_STORAGE_ID
      { storage_id := 0, object_compressed_size := 0,
        parent_object := 0xFFFFFFFF, association_type := 1,
        filename := "newdir" }
      (by decide) (Or.inr rfl) (Or.inl rfl) rfl
  exact (h.2 (by decide)).1

theorem path_some_imp_valid (t : FsHandletable) (h : Nat) (p : String)
    (hp : fs_path_from_handle t h = some p) : fs_handle_valid t h = true := by
  unfold fs_path_from_handle at hp
  by_cases hv : fs_handle_valid t h
  · exact hv
  · simp [hv] at hp

theorem filter_length_set_not (q : FsHandletableEntry → Bool)
    (l : List FsHandletableEntry) :
    ∀ (i : Nat) (e' : FsHandletableEntry) (hi : i < l.length),
      q (l.get ⟨i, hi⟩) = true → q e' = false →
      ((l.set i e').filter q).length = (l.filter q).length - 1 := by
  induction l with
  | nil =>
    intro i e' hi
    exact absurd hi (by simp)
  | cons a l ih =>
    intro i e' hi hq hq'
    cases i with
    | zero =>
      rw [List.set_cons_zero]
      simp only [List.get] at hq
      simp [List.filter_cons, hq, hq']
    | succ j =>
      rw [List.set_cons_succ]
      have hj : j < l.length := by simpa using hi
      have hq2 : q (l.get ⟨j, hj⟩) = true := by simpa using hq
      have hpos : 0 < (l.filter q).length := by
        have hmem : l.get ⟨j, hj⟩ ∈ l := List.get_mem l j hj
        have hmf : l.get ⟨j, hj⟩ ∈ l.filter q := List.mem_filter.mpr ⟨hmem, hq2⟩
        exact List.length_pos.mpr (List.ne_nil_of_mem hmf)
      have hrec := ih j e' hj hq2 hq'
      by_cases hqa : q a = true
      · simp only [List.filter_cons, hqa, if_true, List.length_cons, hrec]
        omega
      · simp only [Bool.not_eq_true] at hqa
        simp only [List.filter_cons, hqa, Bool.false_eq_true, if_false, hrec]

theorem fs_delete_handle_counts (t : FsHandletable) (h : Nat)
    (hv : fs_handle_valid t h = true)
    (h1 : 0 < t.handles_used) (h2 : t.handles_used < 2 ^ 32) :
    (fs_delete_handle t h).handles_used = t.handles_used - 1 ∧
    liveCount (fs_delete_handle t h) = liveCount t - 1 := by
  have hex : ∃ i, t.handles.findIdx?
      (fun e => e.handle == h && e.name != "") = some i := by
    rcases List.any_eq_true.mp hv with ⟨e, hmem, hpe⟩
    cases hfind : t.handles.findIdx? (fun e => e.handle == h && e.name != "") with
    | none =>
      have hall := List.findIdx?_eq_none_iff.mp hfind e hmem
      rw [hpe] at hall
      cases hall
    | some i => exact ⟨i, rfl⟩
  rcases hex with ⟨i, hfind⟩
  obtain ⟨hi, hpi, -⟩ := List.findIdx?_eq_some_iff_getElem.mp hfind
  unfold fs_delete_handle
  rw [hfind]
  constructor
  · show sub32 t.handles_used 1 = t.handles_used - 1
    unfold sub32
    have hM : (2 : Nat) ^ 32 = 4294967296 := by norm_num
    rw [hM] at h2 ⊢
    omega
  · unfold liveCount
    apply filter_length_set_not (fun e => e.name != "") t.handles i _ hi
    · exact (Bool.and_eq_true _ _ |>.mp hpi).2
    · simp

/-- Claim C9: `DeleteObject` with the session open: an unresolvable
handle returns InvalidObjectHandle with nothing changed; a handle whose
resolved path `stat`s as a directory returns OperationNotSupported with
the table entry and the directory untouched; a handle resolving to a
plain file unlinks the file from the filesystem and removes the handle
table entry, decrementing the used-counter and the live-entry count. -/
theorem c9_delete_object (st : MtpState) (h : Nat)
    (hsess : st.session_open = true) :
    (fs_path_from_handle st.table h = none →
      fs_delete_object st h = (MTP_RESP_INVALID_OBJECT_HANDLE, st)) ∧
    (∀ p, fs_path_from_handle st.table h = some p →
      st.fs.statPath p = some FsObj.dir →
      fs_delete_object st h = (MTP_RESP_OPERATION_NOT_SUPPORTED, st)) ∧
    (∀ p sz, fs_path_from_handle st.table h = some p →
      st.fs.statPath p = some (FsObj.file sz) →
      0 < st.table.handles_used → st.table.handles_used < 2 ^ 32 →
      fs_delete_object st h
        = (MTP_RESP_OK,
           { st with fs := st.fs.unlink p, table := fs_delete_handle st.table h }) ∧
      (fs_delete_handle st.table h).handles_used
        = st.table.handles_used - 1 ∧
      liveCount (fs_delete_handle st.table h) = liveCount st.table - 1) := by
  refine ⟨?_, ?_, ?_⟩
  · intro hpath
    simp [fs_delete_object, hsess, hpath]
  · intro p hpath hstat
    simp [fs_delete_object, hsess, hpath, hstat]
  · intro p sz hpath hstat hu1 hu2
    have hv := path_some_imp_valid st.table h p hpath
    have hcounts := fs_delete_handle_counts st.table h hv hu1 hu2
    refine ⟨?_, hcounts.1, hcounts.2⟩
    simp [fs_delete_object, hsess, hpath, hstat]

/-- Witness for claim C9 at a concrete input: deleting handle 1
(file `a`) in state `stS1` unlinks the file and clears its entry. -/
theorem c9_witness :
    fs_delete_object stS1 1
      = (MTP_RESP_OK,
         { stS1 with fs := stS1.fs.unlink "/littlefs/a", table := fs_delete_handle stS1.table 1 }) := by
  have hd := (c9_delete_object stS1 1 (by decide)).2.2 "/littlefs/a" 10
    (by decide) (by decide) (by decide) (by decide)
  exact hd.1

/-- Claim C5, amended: `resolve_path` (`fs_path_from_handle`) fails for
every handle that is not live — including handle 0 whenever no live
entry carries handle value 0, which holds in every state the responder
reaches through its own table writes, so handle 0 does **not** resolve
to the storage root; for a live entry found with `parent_handle = 0`
the path is `/littlefs/<name>`; for a live entry with a nonzero parent
whose slot exists the path is `/littlefs/<parent name>/<name>` — never
more than 2 segments below the storage root. -/
theorem c5_resolve_path_amended :
    (∀ (t : FsHandletable) (h : Nat), fs_handle_valid t h = false →
      fs_path_from_handle t h = none) ∧
    (∀ t : FsHandletable, (∀ e ∈ t.handles, e.handle = 0 → e.name = "") →
      fs_path_from_handle t 0 = none) ∧
    (∀ (t : FsHandletable) (h : Nat) (e : FsHandletableEntry),
      fs_handle_valid t h = true → fs_get_handle_entry t h = some e →
      e.parent_handle = 0 →
      fs_path_from_handle t h = some ("/littlefs/" ++ e.name)) ∧
    (∀ (t : FsHandletable) (h : Nat) (e pe : FsHandletableEntry),
      fs_handle_valid t h = true → fs_get_handle_entry t h = some e →
      e.parent_handle ≠ 0 → fs_get_handle_entry t e.parent_handle = some pe →
      fs_path_from_handle t h
        = some ("/littlefs/" ++ pe.name ++ "/" ++ e.name)) := by
  refine ⟨?_, ?_, ?_, ?_⟩
  · intro t h hv
    simp [fs_path_from_handle, hv]
  · intro t hzero
    have hv : fs_handle_valid t 0 = false := by
      unfold fs_handle_valid
      rw [List.any_eq_false]
      intro e hmem
      by_cases hh : e.handle = 0
      · have hn := hzero e hmem hh
        simp [hn]
      · simp [hh]
    simp [fs_path_from_handle, hv]
  · intro t h e hv hget hpar
    simp [fs_path_from_handle, hv, hget, hpar]
  · intro t h e pe hv hget hpar hpe
    simp [fs_path_from_handle, hv, hget, hpar, hpe]

/-- Witness for claim C5 at a concrete input: a two-entry table where
handle 2 (`f`, child of directory entry 1 `d`) resolves to the
two-segment path. -/
theorem c5_amended_witness :
    fs_path_from_handle
      { handles :=
          [{ handle := 1, parent_handle := 0, is_dir := true, name := "d" },
           { handle := 2, parent_handle := 1, is_dir := false, name := "f" }],
        handles_used := 2 } 2
      = some "/littlefs/d/f" := by
  have h := c5_resolve_path_amended.2.2.2
    { handles :=
        [{ handle := 1, parent_handle := 0, is_dir := true, name := "d" },
         { handle := 2, parent_handle := 1, is_dir := false, name := "f" }],
      handles_used := 2 } 2
    { handle := 2, parent_handle := 1, is_dir := false, name := "f" }
    { handle := 1, parent_handle := 0, is_dir := true, name := "d" }
    (by decide) (by decide) (by decide) (by decide)
  exact h

theorem getSlot_set_ne (hs : List FsHandletableEntry) (i j : Nat)
    (a : FsHandletableEntry) (hij : i ≠ j) :
    getSlot (hs.set i a) j = getSlot hs j := by
  unfold getSlot
  rw [List.getD_eq_getElem?_getD, List.getD_eq_getElem?_getD,
    List.getElem?_set_ne hij]

theorem getSlot_set_self (hs : List FsHandletableEntry) (i : Nat)
    (a : FsHandletableEntry) (hi : i < hs.length) :
    getSlot (hs.set i a) i = a := by
  unfold getSlot
  rw [List.getD_eq_getElem?_getD, List.getElem?_set_self hi]
  rfl

theorem regen_root_items_flat (l : List FsRootItem) :
    ∀ (hs : List FsHandletableEntry) (c : Nat),
      (∀ it ∈ l, it.is_dir = false) → 1 ≤ c → c + l.length ≤ 32 →
      regen_root_items hs c l = (flatWrite hs c l, c + l.length) := by
  induction l with
  | nil =>
    intro hs c _ _ _
    simp [regen_root_items, flatWrite]
  | cons it rest ih =>
    intro hs c hflat hc1 hc2
    have hd : it.is_dir = false := hflat it (by simp)
    simp only [List.length_cons] at hc2
    have hassign : fs_assign_new_handle c = c + 1 := by
      unfold fs_assign_new_handle add32
      have hM : (2 : Nat) ^ 32 = 4294967296 := by norm_num
      rw [hM]
      omega
    simp only [regen_root_items, hassign]
    by_cases hstop : 32 ≤ c + 1
    · have hrest : rest = [] := List.length_eq_zero.mp (by omega)
      subst hrest
      simp only [hstop, if_true, flatWrite, List.length_cons,
        List.length_nil]
    · simp only [hstop, if_false, hd, Bool.false_eq_true]
      rw [ih _ (c + 1) (fun x hx => hflat x (by simp [hx])) (by omega)
        (by omega)]
      rw [Prod.mk.injEq]
      exact ⟨rfl, by simp only [List.length_cons]; omega⟩

theorem flatWrite_getSlot_out (l : List FsRootItem) :
    ∀ (hs : List FsHandletableEntry) (c j : Nat),
      j < c ∨ c + l.length ≤ j →
      getSlot (flatWrite hs c l) j = getSlot hs j := by
  induction l with
  | nil =>
    intro hs c j _
    rfl
  | cons it rest ih =>
    intro hs c j hj
    simp only [List.length_cons] at hj
    simp only [flatWrite]
    rw [ih _ (c + 1) j (by omega)]
    exact getSlot_set_ne hs c j _ (by omega)

theorem flatWrite_getSlot_in (l : List FsRootItem) :
    ∀ (hs : List FsHandletableEntry) (c j : Nat),
      c ≤ j → j < c + l.length → j < hs.length →
      getSlot (flatWrite hs c l) j =
        { getSlot hs j with
            name := (l.getD (j - c) rootItemDefault).name,
            parent_handle := 0, handle := j } := by
  induction l with
  | nil =>
    intro hs c j h1 h2 _
    simp only [List.length_nil, Nat.add_zero] at h2
    omega
  | cons it rest ih =>
    intro hs c j h1 h2 h3
    simp only [List.length_cons] at h2
    simp only [flatWrite]
    by_cases hjc : j = c
    · subst hjc
      rw [flatWrite_getSlot_out rest _ (j + 1) j (Or.inl (by omega))]
      rw [getSlot_set_self hs j _ h3]
      simp [List.getD]
    · have hidx : (it :: rest).getD (j - c) rootItemDefault
          = rest.getD (j - (c + 1)) rootItemDefault := by
        have hjc' : j - c = (j - (c + 1)) + 1 := by omega
        rw [hjc']
        rfl
      rw [ih (hs.set c _) (c + 1) j (by omega) (by omega)
        (by simpa using h3)]
      rw [getSlot_set_ne hs c j _ (by omega), hidx]

/-- Claim C1, amended: closing a session resets only the session flag
and the handle allocator — the table is kept.  Reopening regenerates
the table from the current filesystem listing: for a flat listing `l`
that fits the table, slots `1 .. l.length` are overwritten with the
listing items (slot `j`: handle `j`, parent 0, `j`-th name, the slot's
old `is_dir` bit), `handles_used` becomes `l.length + 1`, and every
other slot — slot 0 and the slots above the listing — keeps its
pre-close entry.  Handles issued before the close are therefore not
invalidated: any pre-close handle whose value matches a surviving or
rewritten live slot still resolves, and stale live entries can make the
table differ from the filesystem listing. -/
theorem c1_amended (st : MtpState) (l lst0 : List FsRootItem)
    (hsess : st.session_open = true)
    (hflat : ∀ it ∈ l, it.is_dir = false)
    (hlen : l.length ≤ 31)
    (htab : st.table.handles.length = 32) :
    (fs_open_close_session st MTP_OP_CLOSE_SESSION lst0).2.table
      = st.table ∧
    (let st2 := (fs_open_close_session
        (fs_open_close_session st MTP_OP_CLOSE_SESSION lst0).2
        MTP_OP_OPEN_SESSION l).2
     st2.session_open = true ∧
     st2.counter = l.length + 1 ∧
     st2.table.handles_used = l.length + 1 ∧
     (∀ j, 1 ≤ j → j ≤ l.length →
       getSlot st2.table.handles j =
         { getSlot st.table.handles j with
             name := (l.getD (j - 1) rootItemDefault).name,
             parent_handle := 0, handle := j }) ∧
     (∀ j, j = 0 ∨ l.length + 1 ≤ j →
       getSlot st2.table.handles j = getSlot st.table.handles j)) := by
  have hclose : fs_open_close_session st MTP_OP_CLOSE_SESSION lst0
      = (MTP_RESP_OK, { st with session_open := false, counter := 0 }) := by
    simp [fs_open_close_session, hsess, MTP_OP_CLOSE_SESSION,
      MTP_OP_OPEN_SESSION]
  have hregen : fs_handletable_regenerate st.table 0 l
      = ({ handles := flatWrite st.table.handles 1 l,
           handles_used := 1 + l.length }, 1 + l.length) := by
    unfold fs_handletable_regenerate
    have h0 : fs_assign_new_handle 0 = 1 := by
      norm_num [fs_assign_new_handle, add32]
    rw [h0]
    simp only [regen_root_items_flat l st.table.handles 1 hflat (le_refl 1)
      (by omega)]
  have hopen : fs_open_close_session
      { st with session_open := false, counter := 0 } MTP_OP_OPEN_SESSION l
      = (MTP_RESP_OK,
         { st with session_open := true,
                   table := { handles := flatWrite st.table.handles 1 l,
                              handles_used := 1 + l.length },
                   counter := 1 + l.length }) := by
    simp only [fs_open_close_session, MTP_OP_OPEN_SESSION, beq_self_eq_true,
      if_true]
    simp [hregen]
  rw [hclose]
  refine ⟨rfl, ?_⟩
  rw [hopen]
  refine ⟨rfl, ?_, ?_, ?_, ?_⟩
  · show 1 + l.length = l.length + 1
    omega
  · show 1 + l.length = l.length + 1
    omega
  · intro j hj1 hj2
    have hin := flatWrite_getSlot_in l st.table.handles 1 j hj1
      (by omega) (by omega)
    simpa using hin
  · intro j hj
    exact flatWrite_getSlot_out l st.table.handles 1 j (by omega)

/-- Witness for claim C1 (amended) at a concrete input: closing and
reopening `stS2` on the listing `a`, `b`, `c` rewrites slot 1 to the
entry for `a` and keeps slot 0 (the stale pre-close entry for `c`,
handle 4) unchanged. -/
theorem c1_amended_witness :
    getSlot ((fs_open_close_session
        (fs_open_close_session stS2 MTP_OP_CLOSE_SESSION listingABC).2
        MTP_OP_OPEN_SESSION listingABC).2.table.handles) 1 =
      { getSlot stS2.table.handles 1 with
          name := "a", parent_handle := 0, handle := 1 } ∧
    getSlot ((fs_open_close_session
        (fs_open_close_session stS2 MTP_OP_CLOSE_SESSION listingABC).2
        MTP_OP_OPEN_SESSION listingABC).2.table.handles) 0 =
      getSlot stS2.table.handles 0 := by
  have h := c1_amended stS2 listingABC listingABC (by decide) (by decide)
    (by decide) (by decide)
  refine ⟨?_, h.2.2.2.2.2 0 (Or.inl rfl)⟩
  have h1 := h.2.2.2.2.1 1 (by omega) (by decide)
  simpa using h1
